import Mathlib

/-!
Verification of the `block-sleep` utility (sources: `src/main.rs`, `src/gnome.rs`).

The Rust program is shallowly embedded as pure Lean functions:

* `is_running` embeds the `libc::kill(pid, 0)` liveness probe, with the probe
  result (return value and errno) made an explicit argument.
* `parse_duration` embeds the duration-string parser.  Rust's `f64` arithmetic
  is modelled as exact rational arithmetic (`ℚ`): the decimal literals accepted
  by `str::parse::<f64>` are parsed to their exact rational value, and a
  `Duration` is its value in seconds.  IEEE-754 rounding, exponent forms,
  `inf`/`NaN`, and `Duration`'s finite upper range are outside the model.
* The five `block_sleep_*` entry points are embedded as functions of an
  environment `Env` that supplies the observed process liveness at the eager
  precondition check and at each polling tick, the per-tick result of the
  non-blocking timeout-channel receive, and the result of
  `gnome::inhibit_sleep()`.  Their polling loops become a step function on
  tick numbers plus a fuel-bounded runner `runLoop`; side effects that the
  claims mention (timer thread spawned, inhibitor lease acquired, loop
  entered, warnings printed) are recorded in the returned `RunState`.
* `mainTermination` embeds `main`'s handling of the result: an `Err` is
  printed with an `error:` prefix and exits with code 1, a normal return
  exits with code 0, and a Rust panic (`unimplemented!`) aborts the process
  without going through that handler.
-/

namespace BlockSleep

/-- Operating-system process identifier (`sysinfo::Pid`). -/
abbrev Pid := Nat

/-- Result of the `libc::kill(pid, 0)` existence probe: the call either
returned `0` (success), or returned nonzero with `errno` set. -/
inductive KillResult where
  | success : KillResult
  | failure (errno : Int) : KillResult
deriving DecidableEq

/-- POSIX errno `EPERM` (operation not permitted), as on Linux. -/
def EPERM : Int := 1

/-- POSIX errno `ESRCH` (no such process), as on Linux. -/
def ESRCH : Int := 3

/-- Embedding of `impl IsRunning for Pid` (src/main.rs lines 148-154):
`!(proc_alive != 0 && Error::last_os_error().raw_os_error().unwrap() != libc::EPERM)`
where `proc_alive` is the return value of `kill(pid, 0)` (nonzero is `-1` on
POSIX) and the errno is only meaningful when the call failed. -/
def is_running (r : KillResult) : Bool :=
  let proc_alive : Int := match r with | .success => 0 | .failure _ => -1
  let errno : Int := match r with | .success => 0 | .failure e => e
  !(decide (proc_alive ≠ 0) && decide (errno ≠ EPERM))

/-- Numeric value of a decimal digit character. -/
def digitVal (c : Char) : Nat := c.toNat - 48

/-- Value of a list of decimal digit characters, most significant first. -/
def digitsToNat (cs : List Char) : Nat :=
  cs.foldl (fun acc c => acc * 10 + digitVal c) 0

/-- Exact-rational model of Rust `str::parse::<f64>` on an unsigned decimal
significand (`Digits`, `Digits . Digits*`, or `. Digits`).  Exponent forms and
`inf`/`NaN` are not modelled, and the resulting value is exact rather than
rounded to the nearest `f64`. -/
def parseUnsignedDecimal? (cs : List Char) : Option ℚ :=
  match cs.dropWhile Char.isDigit with
  | [] =>
      if (cs.takeWhile Char.isDigit).isEmpty then none
      else some (digitsToNat (cs.takeWhile Char.isDigit) : ℚ)
  | '.' :: frac =>
      if frac.all Char.isDigit
          && !((cs.takeWhile Char.isDigit).isEmpty && frac.isEmpty) then
        some ((digitsToNat (cs.takeWhile Char.isDigit) : ℚ)
          + (digitsToNat frac : ℚ) / 10 ^ frac.length)
      else none
  | _ => none

/-- Sign handling of Rust `str::parse::<f64>`: an optional leading `-` or `+`
before the unsigned significand. -/
def parseSignedDecimal? (cs : List Char) : Option ℚ :=
  match cs with
  | [] => none
  | c :: rest =>
      if c = '-' then (parseUnsignedDecimal? rest).map (fun q => -q)
      else if c = '+' then parseUnsignedDecimal? rest
      else parseUnsignedDecimal? (c :: rest)

/-- Error message of `parse_duration` for an empty TIME value. -/
def emptyTimeMsg : String := "TIME value was empty"

/-- Error message of `parse_duration` for an unparsable number. -/
def invalidCharMsg : String :=
  "invalid character in TIME value. Accepted number endings are: s, m, h, d."

/-- Error message of `parse_duration` for a negative number. -/
def negativeTimeMsg : String := "TIME value cannot be negative."

/-- Seconds per unit for a given final character, mirroring the match in
`parse_duration` (src/main.rs lines 38-46): `d`, `h`, `m`, `s` are units, any
other final character leaves the value in seconds. -/
def secsInUnit (last : Char) : ℚ :=
  if last = 'd' then 24 * 60 * 60
  else if last = 'h' then 60 * 60
  else if last = 'm' then 60
  else if last = 's' then 1
  else 1

/-- Whether the final character is one of the unit suffixes that
`parse_duration` strips before parsing the number. -/
def isUnitChar (last : Char) : Prop :=
  last = 'd' ∨ last = 'h' ∨ last = 'm' ∨ last = 's'

instance (c : Char) : Decidable (isUnitChar c) := by
  unfold isUnitChar
  infer_instance

/-- Embedding of `parse_duration` (src/main.rs lines 37-64).  The last
character selects the unit (and is stripped when it is a unit suffix), the
remainder is parsed as a (possibly signed) decimal number, the product with
the unit is rejected when negative, and otherwise `Duration::from_secs_f64`
yields that many seconds.  `f64` is modelled as `ℚ`. -/
def parse_duration (s : String) : Except String ℚ :=
  match s.data.getLast? with
  | none => .error emptyTimeMsg
  | some last =>
      match parseSignedDecimal?
          (if isUnitChar last then s.data.dropLast else s.data) with
      | none => .error invalidCharMsg
      | some q =>
          if q * secsInUnit last < 0 then .error negativeTimeMsg
          else .ok (q * secsInUnit last)

/-- The sleep-inhibition backends (src/main.rs lines 66-85). -/
inductive Backend where
  | Gnome : Backend
  | SystemdInhibit : Backend
  | SystemdMask : Backend
  | MacOS : Backend
deriving DecidableEq

/-- Result of one observation inside a wait loop. -/
inductive RaceOutcome where
  | TimedOut : RaceOutcome
  | Satisfied : RaceOutcome
  | StillWaiting : RaceOutcome
deriving DecidableEq

/-- Environment a run observes: process liveness as sampled by `is_running`
at the eager precondition check (`entryRunning`) and at each polling tick
(`running`), the per-tick result of the non-blocking `receiver.try_recv()`
on the timeout channel (`timeoutAt`), and the result of
`gnome::inhibit_sleep()` (`inhibit = none` means the lease was acquired;
`some e` means it failed with error `e`). -/
structure Env where
  entryRunning : Pid → Bool
  running : Nat → Pid → Bool
  timeoutAt : Nat → Bool
  inhibit : Option String

/-- How the modelled process run ends. -/
inductive Outcome where
  | error (msg : String) : Outcome
  | panicked (msg : String) : Outcome
  | finished (exitTick : Nat) (result : RaceOutcome) : Outcome
  | slept : Outcome
  | stillLooping : Outcome
deriving DecidableEq

/-- Result of one `block_sleep_*` call: its outcome together with the side
effects the claims talk about. -/
structure RunState where
  outcome : Outcome
  timerStarted : Bool
  leaseAcquired : Bool
  loopEntered : Bool
  warnings : List String
deriving DecidableEq

/-- Precondition error message (src/main.rs lines 191 and 228). -/
def noSuchProcessMsg (pid : Pid) : String :=
  s!"No such process with pid {pid} was running"

/-- Message of `unimplemented!("Backends other than Gnome are not implemented")`. -/
def unimplementedMsg : String :=
  "not implemented: Backends other than Gnome are not implemented"

/-- Message of a bare `unimplemented!()`. -/
def unimplementedBareMsg : String := "not implemented"

/-- Warning printed by `block_sleep_on_all_pids` for a pid that is not
running at entry (src/main.rs lines 268-275). -/
def warnNotRunningMsg (pid : Pid) : String :=
  s!"warn: No such process with pid {pid} was running. Continuing."

/-- One iteration of the `block_sleep_on_pid` loop (src/main.rs lines
204-213): the non-blocking timeout receive is checked first, then the
liveness of the single pid. -/
def singlePidTick (timeout : Nat → Bool) (running : Nat → Bool) (t : Nat) :
    RaceOutcome :=
  if timeout t then .TimedOut
  else if !(running t) then .Satisfied
  else .StillWaiting

/-- The inner `for pid in pids` scan of the `block_sleep_on_first_pid` loop
(src/main.rs lines 247-252).  Its `break` leaves only this `for` loop, so
the scan's sole effect is the message printed for the first exited pid; it
cannot end the enclosing `loop`. -/
def scanFirstExited (running : Pid → Bool) : List Pid → List String
  | [] => []
  | p :: ps =>
      if !(running p) then [s!"Processes with pid {p} exited."]
      else scanFirstExited running ps

/-- One iteration of the `block_sleep_on_first_pid` loop (src/main.rs lines
242-254): the timeout receive is checked first and is the only exit; the
liveness scan only produces output. -/
def firstPidTick (timeout : Nat → Bool) (running : Nat → Pid → Bool)
    (pids : List Pid) (t : Nat) : RaceOutcome × List String :=
  if timeout t then (.TimedOut, ["Timeout reached before any process could exit."])
  else (.StillWaiting, scanFirstExited (running t) pids)

/-- One iteration of the `block_sleep_on_all_pids` loop (src/main.rs lines
287-300): the timeout receive is checked first, then the loop exits when no
pid in the list is observed running. -/
def allPidsTick (timeout : Nat → Bool) (running : Nat → Pid → Bool)
    (pids : List Pid) (t : Nat) : RaceOutcome :=
  if timeout t then .TimedOut
  else if !(pids.any fun pid => running t pid) then .Satisfied
  else .StillWaiting

/-- Fuel-bounded run of a polling loop starting at tick `t`: returns the
first tick (and its outcome) at which the tick function leaves
`StillWaiting`, or `none` when that does not happen within `fuel` ticks. -/
def loopFrom (tick : Nat → RaceOutcome) : Nat → Nat → Option (Nat × RaceOutcome)
  | _, 0 => none
  | t, fuel + 1 =>
      match tick t with
      | .StillWaiting => loopFrom tick (t + 1) fuel
      | o => some (t, o)

/-- Fuel-bounded run of a polling loop from tick 0. -/
def runLoop (tick : Nat → RaceOutcome) (fuel : Nat) : Option (Nat × RaceOutcome) :=
  loopFrom tick 0 fuel

/-- Outcome of a fuel-bounded loop as an `Outcome`. -/
def loopOutcome (tick : Nat → RaceOutcome) (fuel : Nat) : Outcome :=
  match runLoop tick fuel with
  | none => .stillLooping
  | some (t, r) => .finished t r

/-- The effective per-tick timeout observation: the timer thread is spawned
only when a duration was supplied, so without one the channel never yields. -/
def effTimeout (time : Option ℚ) (env : Env) : Nat → Bool :=
  fun t => time.isSome && env.timeoutAt t

/-- Embedding of `block_sleep_on_pid` (src/main.rs lines 187-218): eager
liveness precondition (fatal), then for the Gnome backend the timer thread
(when a duration is given), the inhibitor lease, and the polling loop; any
other backend hits a bare `unimplemented!()`. -/
def block_sleep_on_pid (env : Env) (pid : Pid) (time : Option ℚ)
    (backend : Backend) (fuel : Nat) : RunState :=
  if !(env.entryRunning pid) then
    { outcome := .error (noSuchProcessMsg pid), timerStarted := false,
      leaseAcquired := false, loopEntered := false, warnings := [] }
  else
    match backend with
    | .Gnome =>
        match env.inhibit with
        | some e =>
            { outcome := .error e, timerStarted := time.isSome,
              leaseAcquired := false, loopEntered := false, warnings := [] }
        | none =>
            { outcome := loopOutcome
                (singlePidTick (effTimeout time env) (fun t => env.running t pid)) fuel,
              timerStarted := time.isSome, leaseAcquired := true,
              loopEntered := true, warnings := [] }
    | _ =>
        { outcome := .panicked unimplementedBareMsg, timerStarted := false,
          leaseAcquired := false, loopEntered := false, warnings := [] }

/-- First pid of the list that the eager precondition check of
`block_sleep_on_first_pid` observes as not running (src/main.rs lines
226-230). -/
def firstNotRunning (entry : Pid → Bool) : List Pid → Option Pid
  | [] => none
  | p :: ps => if !(entry p) then some p else firstNotRunning entry ps

/-- Embedding of `block_sleep_on_first_pid` (src/main.rs lines 220-259):
per-pid eager liveness precondition (fatal), then for the Gnome backend the
timer thread, the lease, and the polling loop whose only exit is the
timeout; any other backend hits a bare `unimplemented!()`. -/
def block_sleep_on_first_pid (env : Env) (pids : List Pid) (time : Option ℚ)
    (backend : Backend) (fuel : Nat) : RunState :=
  match firstNotRunning env.entryRunning pids with
  | some p =>
      { outcome := .error (noSuchProcessMsg p), timerStarted := false,
        leaseAcquired := false, loopEntered := false, warnings := [] }
  | none =>
      match backend with
      | .Gnome =>
          match env.inhibit with
          | some e =>
              { outcome := .error e, timerStarted := time.isSome,
                leaseAcquired := false, loopEntered := false, warnings := [] }
          | none =>
              { outcome := loopOutcome
                  (fun t => (firstPidTick (effTimeout time env) env.running pids t).1) fuel,
                timerStarted := time.isSome, leaseAcquired := true,
                loopEntered := true, warnings := [] }
      | _ =>
          { outcome := .panicked unimplementedBareMsg, timerStarted := false,
            leaseAcquired := false, loopEntered := false, warnings := [] }

/-- Warnings printed by the eager check of `block_sleep_on_all_pids`
(src/main.rs lines 268-275): one per pid not running at entry, never an
error. -/
def allPidsWarnings (entry : Pid → Bool) (pids : List Pid) : List String :=
  pids.filterMap fun p =>
    if !(entry p) then some (warnNotRunningMsg p) else none

/-- Embedding of `block_sleep_on_all_pids` (src/main.rs lines 261-305):
the eager check only warns, then for the Gnome backend the timer thread,
the lease, and the polling loop that exits when no listed pid is running;
any other backend hits a bare `unimplemented!()`. -/
def block_sleep_on_all_pids (env : Env) (pids : List Pid) (time : Option ℚ)
    (backend : Backend) (fuel : Nat) : RunState :=
  match backend with
  | .Gnome =>
      match env.inhibit with
      | some e =>
          { outcome := .error e, timerStarted := time.isSome,
            leaseAcquired := false, loopEntered := false,
            warnings := allPidsWarnings env.entryRunning pids }
      | none =>
          { outcome := loopOutcome
              (allPidsTick (effTimeout time env) env.running pids) fuel,
            timerStarted := time.isSome, leaseAcquired := true,
            loopEntered := true,
            warnings := allPidsWarnings env.entryRunning pids }
  | _ =>
      { outcome := .panicked unimplementedBareMsg, timerStarted := false,
        leaseAcquired := false, loopEntered := false,
        warnings := allPidsWarnings env.entryRunning pids }

/-- Embedding of `block_sleep_for_time` (src/main.rs lines 175-185): for the
Gnome backend, acquire the lease, sleep for the duration, return `Ok(())`;
any other backend hits `unimplemented!("Backends other than Gnome are not
implemented")`. -/
def block_sleep_for_time (env : Env) (time : ℚ) (backend : Backend) : RunState :=
  match backend with
  | .Gnome =>
      match env.inhibit with
      | some e =>
          { outcome := .error e, timerStarted := false,
            leaseAcquired := false, loopEntered := false, warnings := [] }
      | none =>
          { outcome := .slept, timerStarted := false, leaseAcquired := true,
            loopEntered := false, warnings := [] }
  | _ =>
      { outcome := .panicked unimplementedMsg, timerStarted := false,
        leaseAcquired := false, loopEntered := false, warnings := [] }

/-- The body of the `block_sleep_indefinitely` loop (src/main.rs lines
312-314) contains no `break` and checks nothing: every tick keeps waiting. -/
def indefiniteTick : Nat → RaceOutcome := fun _ => .StillWaiting

/-- Embedding of `block_sleep_indefinitely` (src/main.rs lines 307-318): for
the Gnome backend, acquire the lease and loop forever; any other backend
hits `unimplemented!("Backends other than Gnome are not implemented")`. -/
def block_sleep_indefinitely (env : Env) (backend : Backend) (fuel : Nat) : RunState :=
  match backend with
  | .Gnome =>
      match env.inhibit with
      | some e =>
          { outcome := .error e, timerStarted := false,
            leaseAcquired := false, loopEntered := false, warnings := [] }
      | none =>
          { outcome := loopOutcome indefiniteTick fuel, timerStarted := false,
            leaseAcquired := true, loopEntered := true, warnings := [] }
  | _ =>
      { outcome := .panicked unimplementedMsg, timerStarted := false,
        leaseAcquired := false, loopEntered := false, warnings := [] }

/-- Parsed command-line arguments (src/main.rs lines 18-35).  The duration,
when present, has already been through `parse_duration`. -/
structure Args where
  pid : Option Pid
  pid_first : Option (List Pid)
  pid_all : Option (List Pid)
  time : Option ℚ

/-- Embedding of `run` (src/main.rs lines 156-169).  Backend detection
(`Backend::from_system`) probes the host OS and environment variables and is
modelled as the `backend` argument. -/
def run (env : Env) (args : Args) (backend : Backend) (fuel : Nat) : RunState :=
  match args.pid with
  | some pid => block_sleep_on_pid env pid args.time backend fuel
  | none =>
      match args.pid_first with
      | some pids => block_sleep_on_first_pid env pids args.time backend fuel
      | none =>
          match args.pid_all with
          | some pids => block_sleep_on_all_pids env pids args.time backend fuel
          | none =>
              match args.time with
              | some t => block_sleep_for_time env t backend
              | none => block_sleep_indefinitely env backend fuel

/-- How the whole process terminates. -/
inductive Termination where
  | exit (code : Nat) (stderrMsg : Option String) : Termination
  | panic (msg : String) : Termination
  | stillRunning : Termination
deriving DecidableEq

/-- Embedding of `main` (src/main.rs lines 9-14): an `Err` from `run` is
printed to the error stream with an `error:` prefix and the process exits
with code 1; a normal return exits with code 0; a panic aborts the process
without passing through this handler (Rust's panic runtime, exit code 101). -/
def mainTermination (st : RunState) : Termination :=
  match st.outcome with
  | .error m => .exit 1 (some ("error: " ++ m))
  | .panicked m => .panic m
  | .stillLooping => .stillRunning
  | _ => .exit 0 none

/-- Whether a termination is the `error:`-message-and-exit-code-1 behaviour
that the spec describes for fatal failures. -/
def Termination.isErrorExit1 : Termination → Bool
  | .exit 1 (some m) => m.startsWith "error: "
  | _ => false

/-- Environment in which every pid is running at the precondition check, no
pid is ever observed running inside the loop, the timeout channel never
yields, and the inhibitor lease is acquired. -/
def envAllDead : Env :=
  { entryRunning := fun _ => true, running := fun _ _ => false,
    timeoutAt := fun _ => false, inhibit := none }

/-- Environment in which every probe says "running", the timeout channel
never yields, and the inhibitor lease is acquired. -/
def envAllAlive : Env :=
  { entryRunning := fun _ => true, running := fun _ _ => true,
    timeoutAt := fun _ => false, inhibit := none }

/-- Environment in which no pid is running at the precondition check. -/
def envDeadEntry : Env :=
  { entryRunning := fun _ => false, running := fun _ _ => true,
    timeoutAt := fun _ => false, inhibit := none }

/-- Environment for the all-pids witness: pid 9 is not running at the entry
check (provoking the warning), pid 3 is observed running at tick 0 and gone
from tick 1 on, the timeout channel never yields, and the lease is
acquired. -/
def envWarnAll : Env :=
  { entryRunning := fun p => p != 9, running := fun t p => p == 3 && t == 0,
    timeoutAt := fun _ => false, inhibit := none }

/-- Arguments of a bare invocation: no pid flags and no duration. -/
def argsIndefinite : Args :=
  { pid := none, pid_first := none, pid_all := none, time := none }

/-- A loop whose tick function never leaves `StillWaiting` never exits,
whatever the fuel and the starting tick. -/
theorem loopFrom_none (tick : Nat → RaceOutcome)
    (h : ∀ t, tick t = .StillWaiting) :
    ∀ fuel t, loopFrom tick t fuel = none := by
  intro fuel
  induction fuel with
  | zero => intro t; rfl
  | succ n ih =>
      intro t
      unfold loopFrom
      rw [h t]
      exact ih (t + 1)

/-- A loop exits at the first tick at which its tick function is terminal,
with that tick's outcome, provided the fuel reaches that tick. -/
theorem loopFrom_exit (tick : Nat → RaceOutcome) :
    ∀ fuel s t0, s ≤ t0 → t0 < s + fuel →
      (∀ t, s ≤ t → t < t0 → tick t = .StillWaiting) →
      tick t0 ≠ .StillWaiting →
      loopFrom tick s fuel = some (t0, tick t0) := by
  intro fuel
  induction fuel with
  | zero => intro s t0 h1 h2 _ _; omega
  | succ n ih =>
      intro s t0 h1 h2 hbef hat
      unfold loopFrom
      rcases eq_or_lt_of_le h1 with rfl | hlt
      · cases ho : tick s with
        | StillWaiting => exact absurd ho hat
        | TimedOut => rfl
        | Satisfied => rfl
      · have hs : tick s = .StillWaiting := hbef s le_rfl hlt
        rw [hs]
        exact ih (s + 1) t0 hlt (by omega) (fun t ht1 ht2 => hbef t (by omega) ht2) hat

/-- C3: `is_running` returns true when the signal-0 probe succeeds, true
when the probe fails with `EPERM` (permission denial still implies the
process exists), and false on any other probe failure. -/
theorem is_running_semantics :
    is_running .success = true ∧
    is_running (.failure EPERM) = true ∧
    ∀ e : Int, e ≠ EPERM → is_running (.failure e) = false := by
  refine ⟨by decide, by decide, ?_⟩
  intro e he
  simp [is_running, he]

/-- Witness for C3: a probe failing with `ESRCH` (no such process) reports
not running. -/
theorem is_running_semantics_witness :
    is_running (.failure ESRCH) = false :=
  is_running_semantics.2.2 ESRCH (by decide)

/-- C8: in each of the three polling loops the timeout-notification check is
evaluated first, so a tick at which the timeout notification holds — in
particular one at which the process exit condition also holds — yields
`TimedOut`. -/
theorem timeout_checked_first (timeout : Nat → Bool)
    (running : Nat → Pid → Bool) (pid : Pid) (pids : List Pid) (t : Nat)
    (h : timeout t = true) :
    singlePidTick timeout (fun u => running u pid) t = .TimedOut ∧
    (firstPidTick timeout running pids t).1 = .TimedOut ∧
    allPidsTick timeout running pids t = .TimedOut := by
  refine ⟨?_, ?_, ?_⟩ <;> simp [singlePidTick, firstPidTick, allPidsTick, h]

/-- Witness for C8: at a tick where the timeout has fired and every process
is observed dead (both exit conditions hold), all three loops report
`TimedOut`. -/
theorem timeout_checked_first_witness :
    singlePidTick (fun _ => true) (fun _ => false) 0 = .TimedOut ∧
    (firstPidTick (fun _ => true) (fun _ _ => false) [4] 0).1 = .TimedOut ∧
    allPidsTick (fun _ => true) (fun _ _ => false) [4] 0 = .TimedOut :=
  timeout_checked_first (fun _ => true) (fun _ _ => false) 4 [4] 0 rfl

/-- C6: in SingleProcess mode, a target pid that is not running at call time
fails with the "no such process" error before the polling loop is entered,
before any timer thread is started, and before the inhibitor lease is
acquired. -/
theorem single_pid_precondition_no_lease (env : Env) (pid : Pid)
    (time : Option ℚ) (backend : Backend) (fuel : Nat)
    (h : env.entryRunning pid = false) :
    block_sleep_on_pid env pid time backend fuel =
      { outcome := .error (noSuchProcessMsg pid), timerStarted := false,
        leaseAcquired := false, loopEntered := false, warnings := [] } := by
  simp [block_sleep_on_pid, h]

/-- Witness for C6 at a concrete environment in which pid 5 is not running
at entry. -/
theorem single_pid_precondition_no_lease_witness :
    block_sleep_on_pid envDeadEntry 5 none .Gnome 3 =
      { outcome := .error (noSuchProcessMsg 5), timerStarted := false,
        leaseAcquired := false, loopEntered := false, warnings := [] } :=
  single_pid_precondition_no_lease envDeadEntry 5 none .Gnome 3 rfl

/-- C9: the indefinite wait loop has no exit: within any number of ticks it
never reaches a terminal state, and (with the lease acquired) the Gnome-mode
run of `block_sleep_indefinitely` is still looping after any amount of
fuel. -/
theorem indefinite_never_terminal (env : Env) (fuel : Nat)
    (h : env.inhibit = none) :
    runLoop indefiniteTick fuel = none ∧
    (block_sleep_indefinitely env .Gnome fuel).outcome = .stillLooping := by
  have hl : ∀ f t, loopFrom indefiniteTick t f = none :=
    loopFrom_none indefiniteTick (fun _ => rfl)
  exact ⟨hl fuel 0, by simp [block_sleep_indefinitely, h, loopOutcome, runLoop, hl]⟩

/-- Witness for C9 at a concrete environment and fuel. -/
theorem indefinite_never_terminal_witness :
    runLoop indefiniteTick 5 = none ∧
    (block_sleep_indefinitely envAllAlive .Gnome 5).outcome = .stillLooping :=
  indefinite_never_terminal envAllAlive 5 rfl

/-- C1 (code bug): in AnyOfSet mode with pid 7 running at entry, observed
exited at every polling tick, and no timeout, the scan of tick 0 observes
the exit (and prints the per-pid message), yet the loop never exits: the
inner `break` leaves only the `for` scan, so the run never reaches
`Satisfied` for any amount of fuel. -/
theorem first_pid_loop_never_satisfied :
    (firstPidTick (effTimeout none envAllDead) envAllDead.running [7] 0).2
      = ["Processes with pid 7 exited."] ∧
    ∀ fuel,
      (block_sleep_on_first_pid envAllDead [7] none .Gnome fuel).outcome
        = .stillLooping := by
  constructor
  · rfl
  · intro fuel
    have hl : ∀ (e : Env) (running : Nat → Pid → Bool) (pids : List Pid) f t,
        loopFrom (fun t => (firstPidTick (effTimeout none e) running pids t).1)
          t f = none :=
      fun e running pids => loopFrom_none _ (fun _ => rfl)
    simp [block_sleep_on_first_pid, firstNotRunning, loopOutcome, runLoop, hl,
      envAllDead]

/-- C2 counterexample: a bare invocation (indefinite mode) with detected
backend `SystemdInhibit` terminates by a panic from `unimplemented!`, which
is not the `error:`-prefixed exit-code-1 behaviour. -/
theorem unsupported_backend_not_error_exit :
    mainTermination (run envAllAlive argsIndefinite .SystemdInhibit 1)
      = .panic unimplementedMsg ∧
    Termination.isErrorExit1
      (mainTermination (run envAllAlive argsIndefinite .SystemdInhibit 1))
      = false := by
  exact ⟨rfl, rfl⟩

/-- C2 (amended): whenever the detected backend is not Gnome and execution
reaches the backend dispatch (no eager precondition failed first), every
mode terminates by a panic from `unimplemented!` rather than by the
`error:`-message/exit-code-1 path. -/
theorem unsupported_backend_panics (env : Env) (backend : Backend)
    (pid : Pid) (pids : List Pid) (time : Option ℚ) (q : ℚ) (fuel : Nat)
    (hb : backend ≠ .Gnome)
    (hpid : env.entryRunning pid = true)
    (hpids : firstNotRunning env.entryRunning pids = none) :
    (block_sleep_for_time env q backend).outcome = .panicked unimplementedMsg ∧
    (block_sleep_indefinitely env backend fuel).outcome
      = .panicked unimplementedMsg ∧
    (block_sleep_on_pid env pid time backend fuel).outcome
      = .panicked unimplementedBareMsg ∧
    (block_sleep_on_first_pid env pids time backend fuel).outcome
      = .panicked unimplementedBareMsg ∧
    (block_sleep_on_all_pids env pids time backend fuel).outcome
      = .panicked unimplementedBareMsg := by
  cases backend
  case Gnome => exact absurd rfl hb
  all_goals
    exact ⟨rfl, rfl, by simp [block_sleep_on_pid, hpid],
      by simp [block_sleep_on_first_pid, hpids], rfl⟩

/-- Witness for C2 (amended): the MacOS backend with passing preconditions
panics in every mode. -/
theorem unsupported_backend_panics_witness :
    (block_sleep_for_time envAllAlive 0 .MacOS).outcome
      = .panicked unimplementedMsg ∧
    (block_sleep_indefinitely envAllAlive .MacOS 1).outcome
      = .panicked unimplementedMsg ∧
    (block_sleep_on_pid envAllAlive 2 none .MacOS 1).outcome
      = .panicked unimplementedBareMsg ∧
    (block_sleep_on_first_pid envAllAlive [2] none .MacOS 1).outcome
      = .panicked unimplementedBareMsg ∧
    (block_sleep_on_all_pids envAllAlive [2] none .MacOS 1).outcome
      = .panicked unimplementedBareMsg :=
  unsupported_backend_panics envAllAlive .MacOS 2 [2] none 0 1 (by decide) rfl rfl

/-- C7: in AllOfSet mode the eager check only prints one warning per pid not
running at entry and never errors, and — while the timeout notification has
not been observed — the polling loop exits with `Satisfied` at the first
tick at which none of the listed pids are observed running. -/
theorem all_pids_warn_and_satisfied (env : Env) (pids : List Pid)
    (time : Option ℚ) (fuel t0 : Nat)
    (hinh : env.inhibit = none)
    (htime : ∀ t, t ≤ t0 → effTimeout time env t = false)
    (hbefore : ∀ t, t < t0 → (pids.any fun pid => env.running t pid) = true)
    (hat : (pids.any fun pid => env.running t0 pid) = false)
    (hfuel : t0 < fuel) :
    block_sleep_on_all_pids env pids time .Gnome fuel =
      { outcome := .finished t0 .Satisfied, timerStarted := time.isSome,
        leaseAcquired := true, loopEntered := true,
        warnings := allPidsWarnings env.entryRunning pids } := by
  have htick : allPidsTick (effTimeout time env) env.running pids t0
      = .Satisfied := by
    simp [allPidsTick, htime t0 le_rfl, hat]
  have hrun : runLoop (allPidsTick (effTimeout time env) env.running pids) fuel
      = some (t0, .Satisfied) := by
    have hx := loopFrom_exit (allPidsTick (effTimeout time env) env.running pids)
      fuel 0 t0 (Nat.zero_le _) (by omega)
      (fun t _ ht2 => by
        simp [allPidsTick, htime t (le_of_lt ht2), hbefore t ht2])
      (by rw [htick]; exact fun hx => RaceOutcome.noConfusion hx)
    rw [htick] at hx
    exact hx
  simp [block_sleep_on_all_pids, hinh, loopOutcome, hrun]

/-- Witness for C7: pid 9 dead at entry yields exactly its warning, and the
loop exits `Satisfied` at tick 1, the first tick at which pid 3 is gone. -/
theorem all_pids_warn_and_satisfied_witness :
    block_sleep_on_all_pids envWarnAll [9, 3] none .Gnome 3 =
      { outcome := .finished 1 .Satisfied, timerStarted := false,
        leaseAcquired := true, loopEntered := true,
        warnings := [warnNotRunningMsg 9] } :=
  all_pids_warn_and_satisfied envWarnAll [9, 3] none 3 1 rfl (fun _ _ => rfl)
    (by
      intro t ht
      have h0 : t = 0 := by omega
      subst h0
      rfl)
    rfl (by omega)

/-- A successfully parsed unsigned decimal literal has a non-negative
value. -/
theorem parseUnsignedDecimal?_nonneg {cs : List Char} {q : ℚ}
    (h : parseUnsignedDecimal? cs = some q) : 0 ≤ q := by
  unfold parseUnsignedDecimal? at h
  split at h
  · split at h
    · exact absurd h (by simp)
    · obtain rfl := Option.some.inj h
      positivity
  · split at h
    · obtain rfl := Option.some.inj h
      positivity
    · exact absurd h (by simp)
  · exact absurd h (by simp)

/-- The first character of a successfully parsed unsigned decimal literal is
a digit or a dot (in particular not a sign character). -/
theorem parseUnsignedDecimal?_head {c : Char} {cs : List Char} {q : ℚ}
    (h : parseUnsignedDecimal? (c :: cs) = some q) :
    c.isDigit = true ∨ c = '.' := by
  by_cases hc : c.isDigit = true
  · exact Or.inl hc
  · right
    unfold parseUnsignedDecimal? at h
    rw [List.dropWhile_cons, if_neg hc] at h
    split at h
    · rename_i heq
      exact absurd heq (by simp)
    · rename_i frac heq
      exact (List.cons.inj heq).1
    · exact absurd h (by simp)

/-- The last character of a successfully parsed unsigned decimal literal is
a digit or a dot (in particular not a unit suffix). -/
theorem parseUnsignedDecimal?_getLast {cs : List Char} {q : ℚ}
    (h : parseUnsignedDecimal? cs = some q) :
    ∃ c, cs.getLast? = some c ∧ (c.isDigit = true ∨ c = '.') := by
  have hsplit := List.takeWhile_append_dropWhile Char.isDigit cs
  unfold parseUnsignedDecimal? at h
  split at h
  · rename_i heq
    split at h
    · exact absurd h (by simp)
    · rename_i hne
      rw [heq, List.append_nil] at hsplit
      have hcs : cs ≠ [] := by
        rintro rfl
        exact hne (by simp)
      refine ⟨cs.getLast hcs, List.getLast?_eq_getLast_of_ne_nil hcs, Or.inl ?_⟩
      have hmem : cs.getLast hcs ∈ cs.takeWhile Char.isDigit := by
        rw [hsplit]
        exact List.getLast_mem hcs
      exact List.mem_takeWhile_imp hmem
  · rename_i frac heq
    split at h
    · rename_i hcond
      rw [heq] at hsplit
      cases frac with
      | nil =>
          refine ⟨'.', ?_, Or.inr rfl⟩
          rw [← hsplit]
          simp
      | cons a frac' =>
          have hne2 : (a :: frac' : List Char) ≠ [] := by simp
          refine ⟨(a :: frac').getLast hne2, ?_, Or.inl ?_⟩
          · rw [← hsplit,
              List.getLast?_append_of_ne_nil _ (by simp : ('.' :: a :: frac' : List Char) ≠ []),
              List.getLast?_cons_cons, List.getLast?_eq_getLast_of_ne_nil hne2]
          · rw [Bool.and_eq_true] at hcond
            exact List.all_eq_true.mp hcond.1 _ (List.getLast_mem hne2)
    · exact absurd h (by simp)
  · exact absurd h (by simp)

/-- A successful unsigned parse is returned unchanged by the sign-handling
wrapper, because its first character is not a sign. -/
theorem parseSignedDecimal?_of_unsigned {cs : List Char} {q : ℚ}
    (h : parseUnsignedDecimal? cs = some q) :
    parseSignedDecimal? cs = some q := by
  match cs with
  | [] => exact absurd h (by simp [parseUnsignedDecimal?])
  | c :: rest =>
      have hc := parseUnsignedDecimal?_head h
      have h1 : c ≠ '-' := by rintro rfl; revert hc; decide
      have h2 : c ≠ '+' := by rintro rfl; revert hc; decide
      simp only [parseSignedDecimal?, if_neg h1, if_neg h2]
      exact h

/-- Last-character property lifted to the signed parser. -/
theorem parseSignedDecimal?_getLast {cs : List Char} {q : ℚ}
    (h : parseSignedDecimal? cs = some q) :
    ∃ c, cs.getLast? = some c ∧ (c.isDigit = true ∨ c = '.') := by
  match cs with
  | [] => exact absurd h (by simp [parseSignedDecimal?])
  | c :: rest =>
      simp only [parseSignedDecimal?] at h
      split_ifs at h with h1 h2
      · rw [Option.map_eq_some'] at h
        obtain ⟨q', hq', _⟩ := h
        obtain ⟨d, hd, hdp⟩ := parseUnsignedDecimal?_getLast hq'
        cases rest with
        | nil => exact absurd hd (by simp)
        | cons r rs =>
            subst h1
            exact ⟨d, by rw [List.getLast?_cons_cons]; exact hd, hdp⟩
      · obtain ⟨d, hd, hdp⟩ := parseUnsignedDecimal?_getLast h
        cases rest with
        | nil => exact absurd hd (by simp)
        | cons r rs =>
            subst h2
            exact ⟨d, by rw [List.getLast?_cons_cons]; exact hd, hdp⟩
      · exact parseUnsignedDecimal?_getLast h

/-- A digit or dot is not one of the unit suffix characters. -/
theorem not_isUnitChar {c : Char} (hc : c.isDigit = true ∨ c = '.') :
    ¬ isUnitChar c := by
  rintro (rfl | rfl | rfl | rfl) <;> rcases hc with hc | hc <;> revert hc <;> decide

/-- A final character that is not a unit suffix leaves the value in
seconds. -/
theorem secsInUnit_eq_one {c : Char} (hnu : ¬ isUnitChar c) :
    secsInUnit c = 1 := by
  unfold isUnitChar at hnu
  push_neg at hnu
  obtain ⟨h1, h2, h3, h4⟩ := hnu
  unfold secsInUnit
  rw [if_neg h1, if_neg h2, if_neg h3, if_neg h4]

/-- Every unit multiplier is positive. -/
theorem secsInUnit_pos (c : Char) : 0 < secsInUnit c := by
  unfold secsInUnit
  split_ifs <;> norm_num

/-- Unit multiplier of the `s` suffix. -/
theorem secsInUnit_s : secsInUnit 's' = 1 := by
  unfold secsInUnit
  rw [if_neg (by decide), if_neg (by decide), if_neg (by decide), if_pos rfl]

/-- Unit multiplier of the `m` suffix. -/
theorem secsInUnit_m : secsInUnit 'm' = 60 := by
  unfold secsInUnit
  rw [if_neg (by decide), if_neg (by decide), if_pos rfl]

/-- Unit multiplier of the `h` suffix. -/
theorem secsInUnit_h : secsInUnit 'h' = 60 * 60 := by
  unfold secsInUnit
  rw [if_neg (by decide), if_pos rfl]

/-- Unit multiplier of the `d` suffix. -/
theorem secsInUnit_d : secsInUnit 'd' = 24 * 60 * 60 := by
  unfold secsInUnit
  rw [if_pos rfl]

/-- Step lemma: `parse_duration` on a string whose last character is `c`. -/
theorem parse_duration_eq (s : String) (c : Char)
    (h : s.data.getLast? = some c) :
    parse_duration s =
      match parseSignedDecimal?
          (if isUnitChar c then s.data.dropLast else s.data) with
      | none => .error invalidCharMsg
      | some q =>
          if q * secsInUnit c < 0 then .error negativeTimeMsg
          else .ok (q * secsInUnit c) := by
  unfold parse_duration
  rw [h]

/-- Behaviour of `parse_duration` on a number followed by a unit suffix. -/
theorem parse_duration_concat_eq (numStr : List Char) (q : ℚ) (c : Char)
    (h : parseSignedDecimal? numStr = some q) (hu : isUnitChar c) :
    parse_duration (String.mk (numStr ++ [c])) =
      if q * secsInUnit c < 0 then .error negativeTimeMsg
      else .ok (q * secsInUnit c) := by
  rw [parse_duration_eq (String.mk (numStr ++ [c])) c (by simp),
    show ((⟨numStr ++ [c]⟩ : String).data) = numStr ++ [c] from rfl,
    if_pos hu, List.dropLast_concat, h]

/-- Behaviour of `parse_duration` on a bare number (no unit suffix). -/
theorem parse_duration_nosuffix_eq (numStr : List Char) (q : ℚ) (c : Char)
    (h : parseSignedDecimal? numStr = some q)
    (hlast : numStr.getLast? = some c) (hnu : ¬ isUnitChar c) :
    parse_duration (String.mk numStr) =
      if q * secsInUnit c < 0 then .error negativeTimeMsg
      else .ok (q * secsInUnit c) := by
  rw [parse_duration_eq (String.mk numStr) c hlast,
    show ((⟨numStr⟩ : String).data) = numStr from rfl, if_neg hnu, h]

/-- C4: for every unsigned decimal literal `N`, `parse_duration` maps `N`
and `N` followed by a unit suffix in {s, m, h, d} to `Ok` with
`N * unit_seconds` seconds, where s=1, m=60, h=3600, d=86400 and an omitted
suffix means seconds. -/
theorem parse_duration_unit_semantics (numStr : List Char) (q : ℚ)
    (h : parseUnsignedDecimal? numStr = some q) :
    parse_duration (String.mk numStr) = .ok q ∧
    parse_duration (String.mk (numStr ++ ['s'])) = .ok (q * 1) ∧
    parse_duration (String.mk (numStr ++ ['m'])) = .ok (q * 60) ∧
    parse_duration (String.mk (numStr ++ ['h'])) = .ok (q * 3600) ∧
    parse_duration (String.mk (numStr ++ ['d'])) = .ok (q * 86400) := by
  have hq0 : 0 ≤ q := parseUnsignedDecimal?_nonneg h
  have hsig : parseSignedDecimal? numStr = some q :=
    parseSignedDecimal?_of_unsigned h
  obtain ⟨c, hlast, hc⟩ := parseUnsignedDecimal?_getLast h
  have hnu : ¬ isUnitChar c := not_isUnitChar hc
  have hnn : ∀ u : ℚ, 0 < u → ¬ (q * u < 0) :=
    fun u hu => not_lt.mpr (mul_nonneg hq0 (le_of_lt hu))
  refine ⟨?_, ?_, ?_, ?_, ?_⟩
  · rw [parse_duration_nosuffix_eq numStr q c hsig hlast hnu,
      if_neg (hnn _ (secsInUnit_pos c)), secsInUnit_eq_one hnu, mul_one]
  · rw [parse_duration_concat_eq numStr q 's' hsig (by decide),
      if_neg (hnn _ (secsInUnit_pos 's')), secsInUnit_s]
  · rw [parse_duration_concat_eq numStr q 'm' hsig (by decide),
      if_neg (hnn _ (secsInUnit_pos 'm')), secsInUnit_m]
  · rw [parse_duration_concat_eq numStr q 'h' hsig (by decide),
      if_neg (hnn _ (secsInUnit_pos 'h')), secsInUnit_h]
    norm_num
  · rw [parse_duration_concat_eq numStr q 'd' hsig (by decide),
      if_neg (hnn _ (secsInUnit_pos 'd')), secsInUnit_d]
    norm_num

/-- Witness for C4 at the literal `2` with each suffix. -/
theorem parse_duration_unit_semantics_witness :
    parse_duration "2" = .ok 2 ∧
    parse_duration "2s" = .ok (2 * 1) ∧
    parse_duration "2m" = .ok (2 * 60) ∧
    parse_duration "2h" = .ok (2 * 3600) ∧
    parse_duration "2d" = .ok (2 * 86400) :=
  parse_duration_unit_semantics ['2'] 2 rfl

/-- C5: an input whose numeric part parses to a negative value is rejected
with the "cannot be negative" error, whichever unit suffix (or none) is
present. -/
theorem parse_duration_rejects_negative (numStr : List Char) (q : ℚ)
    (h : parseSignedDecimal? numStr = some q) (hq : q < 0) :
    parse_duration (String.mk numStr) = .error negativeTimeMsg ∧
    parse_duration (String.mk (numStr ++ ['s'])) = .error negativeTimeMsg ∧
    parse_duration (String.mk (numStr ++ ['m'])) = .error negativeTimeMsg ∧
    parse_duration (String.mk (numStr ++ ['h'])) = .error negativeTimeMsg ∧
    parse_duration (String.mk (numStr ++ ['d'])) = .error negativeTimeMsg := by
  obtain ⟨c, hlast, hc⟩ := parseSignedDecimal?_getLast h
  have hnu : ¬ isUnitChar c := not_isUnitChar hc
  have hneg : ∀ u : ℚ, 0 < u → q * u < 0 :=
    fun u hu => mul_neg_of_neg_of_pos hq hu
  refine ⟨?_, ?_, ?_, ?_, ?_⟩
  · rw [parse_duration_nosuffix_eq numStr q c h hlast hnu,
      if_pos (hneg _ (secsInUnit_pos c))]
  · rw [parse_duration_concat_eq numStr q 's' h (by decide),
      if_pos (hneg _ (secsInUnit_pos 's'))]
  · rw [parse_duration_concat_eq numStr q 'm' h (by decide),
      if_pos (hneg _ (secsInUnit_pos 'm'))]
  · rw [parse_duration_concat_eq numStr q 'h' h (by decide),
      if_pos (hneg _ (secsInUnit_pos 'h'))]
  · rw [parse_duration_concat_eq numStr q 'd' h (by decide),
      if_pos (hneg _ (secsInUnit_pos 'd'))]

/-- Witness for C5 at the literal `-3` with each suffix. -/
theorem parse_duration_rejects_negative_witness :
    parse_duration "-3" = .error negativeTimeMsg ∧
    parse_duration "-3s" = .error negativeTimeMsg ∧
    parse_duration "-3m" = .error negativeTimeMsg ∧
    parse_duration "-3h" = .error negativeTimeMsg ∧
    parse_duration "-3d" = .error negativeTimeMsg :=
  parse_duration_rejects_negative ['-', '3'] (-3) rfl (by norm_num)

/-- C10: the minus-signed zero inputs `-0`, `-0.0`, and `-0` with each unit
suffix all parse to `Ok` with a zero-second duration: the `secs < 0.0`
negativity check does not reject a negative zero. -/
theorem parse_duration_negative_zero :
    parse_duration "-0" = .ok 0 ∧
    parse_duration "-0.0" = .ok 0 ∧
    parse_duration "-0s" = .ok 0 ∧
    parse_duration "-0m" = .ok 0 ∧
    parse_duration "-0h" = .ok 0 ∧
    parse_duration "-0d" = .ok 0 := by
  have h0 : parseSignedDecimal? ['-', '0'] = some (-(0 : ℚ)) := rfl
  have h0' : parseSignedDecimal? ['-', '0'] = some 0 := by
    rw [h0]
    norm_num
  have h00 : parseSignedDecimal? ['-', '0', '.', '0']
      = some (-((0 : ℚ) + 0 / 10 ^ 1)) := rfl
  have h00' : parseSignedDecimal? ['-', '0', '.', '0'] = some 0 := by
    rw [h00]
    norm_num
  refine ⟨?_, ?_, ?_, ?_, ?_, ?_⟩
  · rw [show ("-0" : String) = String.mk ['-', '0'] from rfl,
      parse_duration_nosuffix_eq ['-', '0'] 0 '0' h0' rfl (by decide),
      if_neg (by norm_num), zero_mul]
  · rw [show ("-0.0" : String) = String.mk ['-', '0', '.', '0'] from rfl,
      parse_duration_nosuffix_eq ['-', '0', '.', '0'] 0 '0' h00' rfl (by decide),
      if_neg (by norm_num), zero_mul]
  · rw [show ("-0s" : String) = String.mk (['-', '0'] ++ ['s']) from rfl,
      parse_duration_concat_eq ['-', '0'] 0 's' h0' (by decide),
      if_neg (by norm_num), zero_mul]
  · rw [show ("-0m" : String) = String.mk (['-', '0'] ++ ['m']) from rfl,
      parse_duration_concat_eq ['-', '0'] 0 'm' h0' (by decide),
      if_neg (by norm_num), zero_mul]
  · rw [show ("-0h" : String) = String.mk (['-', '0'] ++ ['h']) from rfl,
      parse_duration_concat_eq ['-', '0'] 0 'h' h0' (by decide),
      if_neg (by norm_num), zero_mul]
  · rw [show ("-0d" : String) = String.mk (['-', '0'] ++ ['d']) from rfl,
      parse_duration_concat_eq ['-', '0'] 0 'd' h0' (by decide),
      if_neg (by norm_num), zero_mul]

end BlockSleep
